import Mathlib

/-!
Shallow embedding of the freshness-and-fault reconciliation core of
`src/cloud_dashboard.py` (a Streamlit telemetry dashboard).

Modelling conventions:
* JSON scalars and objects are modelled by the inductive `JVal`; a parsed
  JSON object (a Python `dict`) is an association list `List (String × JVal)`
  with unique keys and first-match lookup.  JSON arrays do not occur in the
  payloads this program consumes and are not modelled.
* Python floats are modelled by the rationals `ℚ`.  Every comparison the
  program performs (`>=` against a tracked timestamp, `>` against the integer
  thresholds 80 and 300) is exact at the inputs considered here, so no
  floating-point rounding is observable.  The special values produced by
  `float("inf")` / `float("nan")` are outside the model.
* Python truthiness (`if not data`, `if fresh_snapshot and fresh_ts`,
  `if is_active`) is modelled by `truthyJ` and by explicit emptiness /
  zero tests at the use sites.
* Fallible code (`try`/`except`, network fetch) is modelled with `Option`:
  `none` stands for "the Python value is None / the poll failed".
-/

/-- A JSON value as delivered to the dashboard (Python scalars and dicts). -/
inductive JVal where
  | num (q : ℚ)
  | bool (b : Bool)
  | str (s : String)
  | null
  | obj (fields : List (String × JVal))

/-- A parsed JSON object: the payload shape `response.json()` yields. -/
abbrev Payload := List (String × JVal)

/-- Python `dict.get` on an association list: first binding of the key. -/
def tagGet : Payload → String → Option JVal
  | [], _ => none
  | (k, v) :: rest, key => if k = key then some v else tagGet rest key

/-- Python truthiness of a `JVal` (`0`, `0.0`, `False`, `""`, `None` and
`{}` are falsy, everything else truthy). -/
def truthyJ : JVal → Bool
  | .num q => decide (q ≠ 0)
  | .bool b => b
  | .str s => decide (s ≠ "")
  | .null => false
  | .obj l => !l.isEmpty

/-- Numeric value of a decimal digit list (most significant first). -/
def digitsVal (ds : List Char) : Nat :=
  ds.foldl (fun a c => 10 * a + (c.toNat - 48)) 0

/-- Exponent part of a Python float literal, after the `e`/`E`:
an optional sign followed by at least one digit, consuming the rest. -/
def parseExpPart (cs : List Char) : Option Int :=
  let (sgn, cs2) : Int × List Char :=
    match cs with
    | '+' :: r => (1, r)
    | '-' :: r => (-1, r)
    | r => (1, r)
  let (ds, rest) := cs2.span Char.isDigit
  if ds.isEmpty || !rest.isEmpty then none
  else some (sgn * (digitsVal ds : Int))

/-- Surrounding-whitespace strip, as Python `float()` applies to its
string argument before parsing. -/
def pyStrip (cs : List Char) : List Char :=
  ((cs.dropWhile Char.isWhitespace).reverse.dropWhile Char.isWhitespace).reverse

/-- Mantissa of a Python float literal: `digits [. digits]`, `digits .`,
or `. digits`; returns integer part, fractional digits with their count,
and the unconsumed suffix. -/
def parseMantissa (cs : List Char) : Option (Nat × Nat × Nat × List Char) :=
  let (ds, rest) := cs.span Char.isDigit
  match rest with
  | '.' :: rest2 =>
    let (fs, rest3) := rest2.span Char.isDigit
    if ds.isEmpty && fs.isEmpty then none
    else some (digitsVal ds, digitsVal fs, fs.length, rest3)
  | _ => if ds.isEmpty then none else some (digitsVal ds, 0, 0, rest)

/-- The float-literal grammar Python `float(s)` accepts on a string:
strip surrounding whitespace, optional sign, decimal mantissa, optional
exponent.  `none` models the `ValueError` raised on anything else (the
non-finite literals `inf`/`nan` and digit underscores are outside the
model).  The parse is returned as (negative?, integer part, fractional
digits, fractional length, exponent) so that it is kernel-computable. -/
def parseFloatRepr (s : String) : Option (Bool × Nat × Nat × Nat × Int) :=
  let cs := pyStrip s.toList
  let (neg, cs2) : Bool × List Char :=
    match cs with
    | '+' :: r => (false, r)
    | '-' :: r => (true, r)
    | r => (false, r)
  match parseMantissa cs2 with
  | none => none
  | some (ip, fp, fl, rest) =>
    match rest with
    | [] => some (neg, ip, fp, fl, 0)
    | c :: rest2 =>
      if c = 'e' || c = 'E' then
        match parseExpPart rest2 with
        | none => none
        | some e => some (neg, ip, fp, fl, e)
      else none

/-- Value of a parsed float literal. -/
def reprToRat : Bool × Nat × Nat × Nat × Int → ℚ
  | (neg, ip, fp, fl, e) =>
    (if neg then (-1 : ℚ) else 1) * ((ip : ℚ) + (fp : ℚ) / (10 : ℚ) ^ fl)
      * (10 : ℚ) ^ e

/-- Python `float(s)` on a string; `none` models the `ValueError` on a
malformed literal.  An ISO-8601 date-time such as
`"2023-11-14T22:13:20Z"` is not a float literal and yields `none`. -/
def parsePyFloat (s : String) : Option ℚ :=
  (parseFloatRepr s).map reprToRat

/-- Python `float(v)` on a JSON value: numbers convert to themselves,
booleans to 0/1, strings via the float-literal grammar; `None` and dicts
raise `TypeError`, modelled as `none`. -/
def pyFloatOf : JVal → Option ℚ
  | .num q => some q
  | .bool b => some (if b then 1 else 0)
  | .str s => parsePyFloat s
  | .null => none
  | .obj _ => none

/-- Timestamp resolution of `get_raw_data` (src/cloud_dashboard.py lines
207-213): `ts_val = None; if raw_ts: try: ts_val = float(raw_ts) except: pass`.
A falsy raw timestamp is never converted; a failed conversion is swallowed. -/
def resolve_ts : Option JVal → Option ℚ
  | none => none
  | some v => if truthyJ v then pyFloatOf v else none

/-- What one call of `get_raw_data` can observe from the transport.
A network exception, a non-200 HTTP status and an undecodable body all
take the function to its `return None, None` paths. -/
inductive FetchResult where
  | netError
  | httpError
  | badJson
  | ok (p : Payload)

/-- `get_raw_data` (src/cloud_dashboard.py lines 195-217) as a function of
the transport outcome: on success it returns the decoded snapshot together
with the resolved timestamp of its `timestamp` field; every failure path
returns `(None, None)`. -/
def get_raw_data : FetchResult → Option Payload × Option ℚ
  | .ok p => (some p, resolve_ts (tagGet p "timestamp"))
  | _ => (none, none)

/-- `get_val` (src/cloud_dashboard.py lines 219-221):
`if not data: return default` then `data.get(path, default)`.
The `data` argument is a tag mapping or Python `None` (modelled `none`);
a falsy mapping (absent or empty) yields the default. -/
def get_val (data : Option Payload) (path : String) (dflt : JVal) : JVal :=
  match data with
  | none => dflt
  | some [] => dflt
  | some l => (tagGet l path).getD dflt

/-- The per-session mutable state held in `st.session_state`:
`best_snapshot` (initially `None`) and `best_ts` (initially `0.0`). -/
structure TrackedState where
  best_snapshot : Option Payload
  best_ts : ℚ

/-- Session-state initialisation (src/cloud_dashboard.py lines 228-231). -/
def initState : TrackedState := ⟨none, 0⟩

/-- The module-level freshness guard (src/cloud_dashboard.py lines 233-237):
`if fresh_snapshot and fresh_ts:` (both truthy: the snapshot a non-empty
dict, the timestamp a non-zero float) then `if fresh_ts >= best_ts:` replace
both fields.  Every other case leaves the session state unchanged. -/
def poll_update (s : TrackedState) : Option Payload → Option ℚ → TrackedState
  | some (kv :: rest), some t =>
    if t = 0 then s
    else if s.best_ts ≤ t then ⟨some (kv :: rest), t⟩ else s
  | _, _ => s

/-- One full poll cycle: fetch and parse, then apply the freshness guard. -/
def pollCycle (s : TrackedState) (r : FetchResult) : TrackedState :=
  let (fs, fts) := get_raw_data r
  poll_update s fs fts

/-- Tag-mapping extraction (src/cloud_dashboard.py line 247):
`data = raw_snapshot.get("data", {})`. -/
def extract_data (snap : Payload) : JVal :=
  (tagGet snap "data").getD (.obj [])

/-- `FAULT_MAP` (src/cloud_dashboard.py lines 13-49): index of
`system.general.faultArray[i]` to description. -/
def FAULT_MAP : List (Nat × String) := [
  (0, "Unknown fault - reserved"),
  (1, "HV door interlock reads open"),
  (2, "Water coolant primary flow reads off"),
  (3, "Water coolant primary temp exceeds safe limit"),
  (4, "Chiller unit reports fault"),
  (5, "Source body temp exceeds safe limit"),
  (6, "Thermionic current exceeds safe conditioning level"),
  (7, "Thermionic current exceeds safe limit"),
  (8, "Thermionic voltage exceeds safe limit"),
  (9, "Thermionic power exceeds safe limit"),
  (10, "Filament current exceeds safe limit"),
  (11, "Filament voltage exceeds safe limit"),
  (12, "Filament power exceeds safe limit"),
  (13, "Filament resistance too high - possible open circuit"),
  (14, "Filament resistance too low - possible short circuit"),
  (15, "Ioniser power exceeds safe limit"),
  (16, "Ioniser PID control error"),
  (17, "Target current exceeds safe conditioning limit"),
  (18, "Target current exceeds safe limit"),
  (19, "Target voltage exceeds safe limit"),
  (20, "Target power exceeds safe limit"),
  (21, "Extraction current exceeds safe conditioning limit"),
  (22, "Extraction current exceeds safe limit"),
  (23, "Extraction voltage exceeds safe limit"),
  (24, "Extraction power exceeds safe limit"),
  (25, "Cesium temperature exceeds safe limit"),
  (26, "Cesium cooldown has exceeded time limit"),
  (27, "Cesium temperature reading failed"),
  (28, "Cesium temperature has not increased within time limit"),
  (29, "Cesium PID control error"),
  (30, "Vaccum level in source too high"),
  (31, "Time Fault"),
  (32, "Flow rate for source coolant is insufficient"),
  (33, "PLC Diagnostic Error - OB82"),
  (34, "Rack Error - cannot reach IO module")]

/-- `dict.get` on a nat-keyed table (used for `FAULT_MAP.get(i, ...)`). -/
def natGet : List (Nat × String) → Nat → Option String
  | [], _ => none
  | (k, v) :: rest, key => if k = key then some v else natGet rest key

/-- The dotted key scanned for fault bit `i`:
`f"system.general.faultArray[{i}]"`. -/
def fault_key (i : Nat) : String :=
  "system.general.faultArray[" ++ toString i ++ "]"

/-- `FAULT_MAP.get(i, f"Fault Code #{i}")`, with the table passed
explicitly (it is a module-level configuration constant in the source). -/
def fault_desc (fmap : List (Nat × String)) (i : Nat) : String :=
  (natGet fmap i).getD ("Fault Code #" ++ toString i)

/-- `is_active = data.get(key, False)` used as a truth value. -/
def fault_active (l : Payload) (i : Nat) : Bool :=
  truthyJ ((tagGet l (fault_key i)).getD (.bool false))

/-- `get_active_fault_messages` (src/cloud_dashboard.py lines 173-193) with
the fault table passed explicitly: `if not data: return []`, then a loop
`for i in range(99)` appending `FAULT_MAP.get(i, f"Fault Code #{i}")` for
every index whose tag value is truthy (missing keys default to `False`).
The accumulating loop is rendered as a `foldl` over `List.range 99`. -/
def get_active_fault_messages_core (fmap : List (Nat × String))
    (data : Option Payload) : List String :=
  match data with
  | none => []
  | some [] => []
  | some l =>
    (List.range 99).foldl
      (fun acc i => if fault_active l i then acc ++ [fault_desc fmap i] else acc) []

/-- `get_active_fault_messages(data)` as in the source, reading the
module-level `FAULT_MAP`. -/
def get_active_fault_messages (data : Option Payload) : List String :=
  get_active_fault_messages_core FAULT_MAP data

/-- `fault_active_bit = get_val(data, "system.general.systemFault", False)`
(src/cloud_dashboard.py line 255). -/
def fault_active_bit (data : Option Payload) : JVal :=
  get_val data "system.general.systemFault" (.bool false)

/-- `is_fault_condition = fault_active_bit or (len(active_fault_list) > 0)`
(src/cloud_dashboard.py line 259), as the truth value it is used as. -/
def is_fault_condition (data : Option Payload) : Bool :=
  truthyJ (fault_active_bit data) || !(get_active_fault_messages data).isEmpty

/-- `is_stale = age_seconds > 80` (src/cloud_dashboard.py line 251). -/
def is_stale (age_seconds : ℚ) : Bool := decide (age_seconds > 80)

/-- `is_offline = age_seconds > 300` (src/cloud_dashboard.py line 252). -/
def is_offline (age_seconds : ℚ) : Bool := decide (age_seconds > 300)

/-- The health tiers the header card can display.  `CONNECTING` (no snapshot
ever accepted) is handled earlier by the `raw_snapshot is None` early-return
and corresponds to `TrackedState.best_snapshot = none`. -/
inductive HealthStatus where
  | FAULT
  | OFFLINE
  | SLOW
  | ONLINE
deriving DecidableEq

/-- The staleness branch of the header (src/cloud_dashboard.py lines
285-290): `elif is_offline: ... elif is_stale: ... else: ...`. -/
def classify (age_seconds : ℚ) : HealthStatus :=
  if is_offline age_seconds then .OFFLINE
  else if is_stale age_seconds then .SLOW
  else .ONLINE

/-- The full header status branch (src/cloud_dashboard.py lines 271-290):
the fault condition is tested first, the staleness tiers only afterwards. -/
def header_status (data : Option Payload) (age_seconds : ℚ) : HealthStatus :=
  if is_fault_condition data then .FAULT else classify age_seconds

/-- The sub-text of the fault card (src/cloud_dashboard.py lines 273-281):
one fault is shown directly, several as a count, and none (global bit only)
as the generic check-logs fallback. -/
def fault_sub_text (faults : List String) : String :=
  match faults with
  | [f] => "⚠️ " ++ f
  | _ :: _ :: _ => "⚠️ " ++ toString faults.length ++ " Active Faults"
  | [] => "⚠️ Check PLC Logs"

/-- `age_seconds = time.time() - msg_timestamp if msg_timestamp else 0`
(src/cloud_dashboard.py line 250). -/
def age_seconds (now msg_timestamp : ℚ) : ℚ :=
  if msg_timestamp ≠ 0 then now - msg_timestamp else 0

/-! ### Helper lemmas about the freshness guard -/

/-- The guard ignores a missing snapshot. -/
theorem poll_update_none_snap (s : TrackedState) (fts : Option ℚ) :
    poll_update s none fts = s := by
  cases fts <;> rfl

/-- The guard ignores a missing (unresolved) timestamp. -/
theorem poll_update_none_ts (s : TrackedState) (fs : Option Payload) :
    poll_update s fs none = s := by
  cases fs with
  | none => rfl
  | some p => cases p <;> rfl

/-- The guard ignores an empty (falsy) snapshot dict. -/
theorem poll_update_nil (s : TrackedState) (fts : Option ℚ) :
    poll_update s (some []) fts = s := by
  cases fts <;> rfl

/-- Unfolding of the guard on a non-empty snapshot with a resolved
timestamp: the zero (falsy) check, then the `fresh_ts >= best_ts` check. -/
theorem poll_update_cons (s : TrackedState) (kv : String × JVal)
    (rest : Payload) (t : ℚ) :
    poll_update s (some (kv :: rest)) (some t)
      = if t = 0 then s else if s.best_ts ≤ t then ⟨some (kv :: rest), t⟩ else s :=
  rfl

/-- Acceptance case of the guard. -/
theorem poll_update_accept (s : TrackedState) (kv : String × JVal)
    (rest : Payload) (t : ℚ) (ht : t ≠ 0) (hle : s.best_ts ≤ t) :
    poll_update s (some (kv :: rest)) (some t) = ⟨some (kv :: rest), t⟩ := by
  rw [poll_update_cons, if_neg ht, if_pos hle]

/-- Rejection cases of the guard on a resolved timestamp. -/
theorem poll_update_unchanged (s : TrackedState) (p : Payload) (t : ℚ)
    (h : t = 0 ∨ ¬s.best_ts ≤ t) :
    poll_update s (some p) (some t) = s := by
  cases p with
  | nil => exact poll_update_nil s (some t)
  | cons kv rest =>
    rw [poll_update_cons]
    rcases h with h0 | hlt
    · rw [if_pos h0]
    · by_cases h0 : t = 0
      · rw [if_pos h0]
      · rw [if_neg h0, if_neg hlt]

/-- `best_ts` never decreases under the guard. -/
theorem poll_update_mono (s : TrackedState) (fs : Option Payload)
    (fts : Option ℚ) : s.best_ts ≤ (poll_update s fs fts).best_ts := by
  cases fs with
  | none => rw [poll_update_none_snap]
  | some p =>
    cases fts with
    | none => rw [poll_update_none_ts]
    | some t =>
      cases p with
      | nil => rw [poll_update_nil]
      | cons kv rest =>
        rw [poll_update_cons]
        split_ifs with h1 h2
        · exact le_refl _
        · exact h2
        · exact le_refl _

/-- A guarded appending fold is the filtered map. -/
theorem foldl_guard_append (p : Nat → Bool) (f : Nat → String) :
    ∀ (l : List Nat) (acc : List String),
      l.foldl (fun acc i => if p i then acc ++ [f i] else acc) acc
        = acc ++ (l.filter p).map f := by
  intro l
  induction l with
  | nil => intro acc; simp
  | cons i rest ih =>
    intro acc
    by_cases h : p i
    · simp only [List.foldl_cons, h, if_true]
      rw [ih, List.filter_cons_of_pos h, List.map_cons]
      simp
    · simp only [List.foldl_cons]
      rw [if_neg h, ih, List.filter_cons_of_neg h]

/-- No fault key is active in an empty tag mapping. -/
theorem fault_active_nil (i : Nat) : fault_active [] i = false := rfl

/-! ### Claim theorems -/

/-- C1 counterexample: the claimed "replace iff resolved instant >= tracked
instant" fails at a snapshot whose timestamp resolves to the instant `0.0`
(raw string `"0"`): the instant satisfies `0 >= best_ts` on the fresh
session state, yet the guard `if fresh_snapshot and fresh_ts:` treats the
`0.0` float as falsy and the snapshot is not accepted. -/
theorem C1_cex_instant_zero_not_replaced :
    get_raw_data (.ok [("timestamp", JVal.str "0")])
        = (some [("timestamp", JVal.str "0")], some 0) ∧
      (0 : ℚ) ≥ initState.best_ts ∧
      pollCycle initState (.ok [("timestamp", JVal.str "0")]) = initState ∧
      initState.best_snapshot = none := by
  have hres : resolve_ts (some (JVal.str "0")) = some 0 := by
    have h1 : truthyJ (.str "0") = true := by decide
    rw [resolve_ts, h1]
    show parsePyFloat "0" = some 0
    have h3 : parseFloatRepr "0" = some (false, 0, 0, 0, 0) := by decide
    rw [parsePyFloat, h3]
    simp [reprToRat]
  refine ⟨?_, ?_, ?_, rfl⟩
  · show (some [("timestamp", JVal.str "0")], resolve_ts (some (JVal.str "0"))) = _
    rw [hres]
  · show (0 : ℚ) ≥ 0
    exact le_refl 0
  · show poll_update initState (some [("timestamp", JVal.str "0")])
        (resolve_ts (some (JVal.str "0"))) = initState
    rw [hres]
    exact poll_update_unchanged _ _ _ (Or.inl rfl)

/-- C1 (amended): `best_ts` is monotonically non-decreasing across poll
cycles, and a freshly fetched snapshot replaces the tracked one iff the
parsed snapshot is a non-empty mapping, its resolved instant is non-zero
(both Python-truthy) and the instant is `>=` the currently tracked instant
(ties accept the newer fetch); for snapshots with instants `[100, 90]`
considered in that order the tracker retains the one with instant `100`. -/
theorem C1_amended_monotonic_freshness :
    (∀ (s : TrackedState) (fs : Option Payload) (fts : Option ℚ),
        s.best_ts ≤ (poll_update s fs fts).best_ts) ∧
      (∀ (s : TrackedState) (p : Payload) (t : ℚ),
        p ≠ [] → t ≠ 0 → s.best_ts ≤ t →
          poll_update s (some p) (some t) = ⟨some p, t⟩) ∧
      (∀ (s : TrackedState) (p : Payload) (t : ℚ),
        poll_update s (some p) (some t) ≠ s →
          p ≠ [] ∧ t ≠ 0 ∧ s.best_ts ≤ t) ∧
      (pollCycle (pollCycle initState (.ok [("timestamp", JVal.num 100)]))
          (.ok [("timestamp", JVal.num 90)])).best_ts = 100 ∧
      (pollCycle (pollCycle initState (.ok [("timestamp", JVal.num 100)]))
          (.ok [("timestamp", JVal.num 90)])).best_snapshot
        = some [("timestamp", JVal.num 100)] := by
  have hstep1 : pollCycle initState (.ok [("timestamp", JVal.num 100)])
      = ⟨some [("timestamp", JVal.num 100)], 100⟩ := by
    show poll_update initState (some [("timestamp", JVal.num 100)])
        (resolve_ts (some (JVal.num 100))) = _
    have : resolve_ts (some (JVal.num 100)) = some 100 := by
      rw [resolve_ts]
      norm_num [truthyJ, pyFloatOf]
    rw [this]
    exact poll_update_accept _ _ _ _ (by norm_num) (by norm_num [initState])
  have hstep2 : pollCycle (⟨some [("timestamp", JVal.num 100)], 100⟩ : TrackedState)
      (.ok [("timestamp", JVal.num 90)])
      = ⟨some [("timestamp", JVal.num 100)], 100⟩ := by
    show poll_update (⟨some [("timestamp", JVal.num 100)], 100⟩ : TrackedState)
        (some [("timestamp", JVal.num 90)]) (resolve_ts (some (JVal.num 90)))
      = (⟨some [("timestamp", JVal.num 100)], 100⟩ : TrackedState)
    have : resolve_ts (some (JVal.num 90)) = some 90 := by
      rw [resolve_ts]
      norm_num [truthyJ, pyFloatOf]
    rw [this]
    exact poll_update_unchanged _ _ _ (Or.inr (by norm_num))
  refine ⟨poll_update_mono, ?_, ?_, ?_, ?_⟩
  · intro s p t hp ht hle
    cases p with
    | nil => exact absurd rfl hp
    | cons kv rest => exact poll_update_accept s kv rest t ht hle
  · intro s p t hne
    cases p with
    | nil => exact absurd (poll_update_nil s (some t)) hne
    | cons kv rest =>
      by_cases h0 : t = 0
      · exact absurd (poll_update_unchanged s _ t (Or.inl h0)) hne
      · by_cases hle : s.best_ts ≤ t
        · exact ⟨List.cons_ne_nil kv rest, h0, hle⟩
        · exact absurd (poll_update_unchanged s _ t (Or.inr hle)) hne
  · rw [hstep1, hstep2]
  · rw [hstep1, hstep2]

/-- C1 amended witness: a non-empty snapshot with non-zero instant `7 >= 0`
is accepted on the fresh session state. -/
theorem C1_amended_monotonic_freshness_w :
    poll_update initState (some [("a", JVal.num 1)]) (some 7)
      = ⟨some [("a", JVal.num 1)], 7⟩ :=
  C1_amended_monotonic_freshness.2.1 initState [("a", JVal.num 1)] 7
    (by simp) (by norm_num) (by norm_num [initState])

/-- C2 counterexample: `best_ts` is initialised to `0.0`, not to the lowest
possible value, so the very first snapshot whose timestamp resolves to the
negative instant `-5` is rejected: the whole poll leaves the session state
unchanged (still no accepted snapshot). -/
theorem C2_cex_first_negative_rejected :
    initState.best_ts = 0 ∧
      resolve_ts (tagGet [("x", JVal.num 1), ("timestamp", JVal.num (-5))]
          "timestamp") = some (-5) ∧
      pollCycle initState (.ok [("x", JVal.num 1), ("timestamp", JVal.num (-5))])
        = initState := by
  have hres : resolve_ts (tagGet [("x", JVal.num 1), ("timestamp", JVal.num (-5))]
      "timestamp") = some (-5) := by
    show resolve_ts (some (JVal.num (-5))) = some (-5)
    rw [resolve_ts]
    norm_num [truthyJ, pyFloatOf]
  refine ⟨rfl, hres, ?_⟩
  show poll_update initState (some [("x", JVal.num 1), ("timestamp", JVal.num (-5))])
      (resolve_ts (tagGet [("x", JVal.num 1), ("timestamp", JVal.num (-5))]
        "timestamp")) = initState
  rw [hres]
  exact poll_update_unchanged _ _ _ (Or.inr (by norm_num [initState]))

/-- C2 (amended): `best_ts` starts at `0.0`, so the very first non-empty
snapshot is accepted iff its resolved instant is strictly positive; a first
snapshot whose instant is zero or negative is rejected and the state stays
in its initial (connecting) form. -/
theorem C2_amended_first_acceptance :
    initState.best_ts = 0 ∧
      (∀ (p : Payload) (t : ℚ), p ≠ [] → 0 < t →
        poll_update initState (some p) (some t) = ⟨some p, t⟩) ∧
      (∀ (p : Payload) (t : ℚ), t ≤ 0 →
        poll_update initState (some p) (some t) = initState) := by
  refine ⟨rfl, ?_, ?_⟩
  · intro p t hp ht
    cases p with
    | nil => exact absurd rfl hp
    | cons kv rest =>
      exact poll_update_accept initState kv rest t (ne_of_gt ht) (le_of_lt ht)
  · intro p t ht
    by_cases h0 : t = 0
    · exact poll_update_unchanged _ _ _ (Or.inl h0)
    · refine poll_update_unchanged _ _ _ (Or.inr ?_)
      show ¬initState.best_ts ≤ t
      norm_num [initState]
      exact lt_of_le_of_ne ht h0

/-- C2 amended witness: a first snapshot with the positive instant
`1700000000` is accepted. -/
theorem C2_amended_first_acceptance_w :
    poll_update initState (some [("b", JVal.bool true)]) (some 1700000000)
      = ⟨some [("b", JVal.bool true)], 1700000000⟩ :=
  C2_amended_first_acceptance.2.1 [("b", JVal.bool true)] 1700000000
    (by simp) (by norm_num)

/-- C3 counterexample: for a flat payload (no `data` key) the code takes
`raw_snapshot.get("data", {})`, which is the empty mapping, not the whole
payload: the top-level entries of the flat payload are not the tags the
accessor consumes. -/
theorem C3_cex_flat_payload_not_tags :
    tagGet [("beamline.magnet.readbackA", JVal.num 2), ("timestamp", JVal.num 5)]
        "data" = none ∧
      extract_data [("beamline.magnet.readbackA", JVal.num 2),
          ("timestamp", JVal.num 5)] = JVal.obj [] ∧
      JVal.obj [] ≠ JVal.obj [("beamline.magnet.readbackA", JVal.num 2),
          ("timestamp", JVal.num 5)] ∧
      get_val (some []) "beamline.magnet.readbackA" (JVal.num 0) = JVal.num 0 := by
  refine ⟨rfl, rfl, ?_, rfl⟩
  intro h
  injection h with h2
  exact List.noConfusion h2

/-- C3 (amended): the parser supports only the enveloped payload shape:
if the parsed payload has a `data` key the tag mapping is the value under
it, and otherwise the tag mapping is empty — the flat (un-enveloped) shape
is not supported, its top-level entries are invisible to the accessor. -/
theorem C3_amended_data_key_extraction :
    (∀ (snap : Payload) (v : JVal), tagGet snap "data" = some v →
        extract_data snap = v) ∧
      (∀ snap : Payload, tagGet snap "data" = none →
        extract_data snap = JVal.obj []) ∧
      extract_data [("timestamp", JVal.num 5),
          ("data", JVal.obj [("x", JVal.num 1)])] = JVal.obj [("x", JVal.num 1)] := by
  refine ⟨?_, ?_, rfl⟩
  · intro snap v h
    rw [extract_data, h]
    rfl
  · intro snap h
    rw [extract_data, h]
    rfl

/-- C3 amended witness: a payload carrying no `data` key extracts the empty
tag mapping. -/
theorem C3_amended_data_key_extraction_w :
    extract_data [("a", JVal.num 1)] = JVal.obj [] :=
  C3_amended_data_key_extraction.2.1 [("a", JVal.num 1)] rfl

/-- C4 counterexample: the code only ever tries `float(raw_ts)`; there is no
ISO-8601 attempt, so resolving the string `"2023-11-14T22:13:20Z"` yields
unresolved (`None`), not the instant `1700000000.0` the claim states. -/
theorem C4_cex_iso_string_unresolved :
    resolve_ts (some (JVal.str "2023-11-14T22:13:20Z")) = none := by
  have h1 : truthyJ (.str "2023-11-14T22:13:20Z") = true := by decide
  rw [resolve_ts, h1]
  show parsePyFloat "2023-11-14T22:13:20Z" = none
  have h3 : parseFloatRepr "2023-11-14T22:13:20Z" = none := by decide
  rw [parsePyFloat, h3]
  rfl

/-- C4 (amended): timestamp resolution makes a single attempt — interpret a
truthy raw timestamp with Python `float()`; numeric values and numeric
strings resolve to their value (the epoch number `1700000000` to the
instant `1700000000.0`), ISO-8601 date-time strings are not parsed and
yield unresolved, and every malformed, falsy or absent input yields
unresolved without raising. -/
theorem C4_amended_numeric_only_resolution :
    resolve_ts (some (JVal.num 1700000000)) = some 1700000000 ∧
      resolve_ts (some (JVal.str "1700000000")) = some 1700000000 ∧
      resolve_ts (some (JVal.str "1700000000.5")) = some (1700000000.5 : ℚ) ∧
      resolve_ts (some (JVal.str "not-a-number")) = none ∧
      resolve_ts (some (JVal.str "")) = none ∧
      resolve_ts none = none ∧
      (∀ v : JVal, truthyJ v = false → resolve_ts (some v) = none) := by
  refine ⟨?_, ?_, ?_, ?_, rfl, rfl, ?_⟩
  · rw [resolve_ts]
    norm_num [truthyJ, pyFloatOf]
  · have h1 : truthyJ (.str "1700000000") = true := by decide
    rw [resolve_ts, h1]
    show parsePyFloat "1700000000" = some 1700000000
    have h3 : parseFloatRepr "1700000000" = some (false, 1700000000, 0, 0, 0) := by
      decide
    rw [parsePyFloat, h3]
    simp [reprToRat]
  · have h1 : truthyJ (.str "1700000000.5") = true := by decide
    rw [resolve_ts, h1]
    show parsePyFloat "1700000000.5" = some (1700000000.5 : ℚ)
    have h3 : parseFloatRepr "1700000000.5" = some (false, 1700000000, 5, 1, 0) := by
      decide
    rw [parsePyFloat, h3]
    show some (reprToRat (false, 1700000000, 5, 1, 0)) = some (1700000000.5 : ℚ)
    norm_num [reprToRat]
  · have h1 : truthyJ (.str "not-a-number") = true := by decide
    rw [resolve_ts, h1]
    show parsePyFloat "not-a-number" = none
    have h3 : parseFloatRepr "not-a-number" = none := by decide
    rw [parsePyFloat, h3]
    rfl
  · intro v hv
    rw [resolve_ts, hv]
    rfl

/-- C4 amended witness: the falsy raw timestamp `0` (a JSON number zero) is
never converted and resolves to unresolved. -/
theorem C4_amended_numeric_only_resolution_w :
    resolve_ts (some (JVal.num 0)) = none :=
  C4_amended_numeric_only_resolution.2.2.2.2.2.2 (JVal.num 0) (by norm_num [truthyJ])

/-- C5: ignoring the fault override, elapsed time strictly greater than
300 s classifies as `OFFLINE`, else strictly greater than 80 s as `SLOW`,
else `ONLINE`; in particular elapsed `79.9` gives `ONLINE`, `80.1` gives
`SLOW` and `300.1` gives `OFFLINE`. -/
theorem C5_staleness_classification :
    (∀ age : ℚ, age > 300 → classify age = .OFFLINE) ∧
      (∀ age : ℚ, age ≤ 300 → age > 80 → classify age = .SLOW) ∧
      (∀ age : ℚ, age ≤ 80 → classify age = .ONLINE) ∧
      classify (79.9 : ℚ) = .ONLINE ∧
      classify (80.1 : ℚ) = .SLOW ∧
      classify (300.1 : ℚ) = .OFFLINE := by
  refine ⟨?_, ?_, ?_, ?_, ?_, ?_⟩
  · intro age h
    simp only [classify, is_offline, is_stale, decide_eq_true_eq]
    rw [if_pos h]
  · intro age h300 h80
    simp only [classify, is_offline, is_stale, decide_eq_true_eq]
    rw [if_neg (not_lt.mpr h300), if_pos h80]
  · intro age h80
    simp only [classify, is_offline, is_stale, decide_eq_true_eq]
    rw [if_neg (not_lt.mpr (le_trans h80 (by norm_num))), if_neg (not_lt.mpr h80)]
  · norm_num [classify, is_offline, is_stale]
  · norm_num [classify, is_offline, is_stale]
  · norm_num [classify, is_offline, is_stale]

/-- C5 witness: elapsed 400 s classifies as `OFFLINE`. -/
theorem C5_staleness_classification_w : classify (400 : ℚ) = .OFFLINE :=
  C5_staleness_classification.1 400 (by norm_num)

/-- C6: the decoder scans `system.general.faultArray[i]` for `i` from 0 to
98 inclusive in ascending order over any tag mapping; an index is active iff
its tag value is truthy (missing keys default to inactive); each active
index yields its table description, an unmapped active index the
placeholder `Fault Code #i`; the example tags with active indices 2 and 5
against a table mapping only `2` yield exactly the two entries in order.
The table itself is the module constant `FAULT_MAP`, which maps index 2 to
the water-coolant description. -/
theorem C6_fault_decoding :
    (∀ (fmap : List (Nat × String)) (l : Payload),
        get_active_fault_messages_core fmap (some l)
          = ((List.range 99).filter (fault_active l)).map (fault_desc fmap)) ∧
      natGet FAULT_MAP 2 = some "Water coolant primary flow reads off" ∧
      get_active_fault_messages_core [(2, "Water coolant primary flow reads off")]
          (some [("system.general.faultArray[2]", JVal.bool true),
                 ("system.general.faultArray[5]", JVal.bool true)])
        = ["Water coolant primary flow reads off", "Fault Code #5"] := by
  refine ⟨?_, by decide, by decide⟩
  intro fmap l
  cases l with
  | nil =>
    show ([] : List String) = _
    rw [List.filter_eq_nil_iff.mpr, List.map_nil]
    intro i _
    rw [fault_active_nil]
    exact Bool.false_ne_true
  | cons kv rest =>
    show (List.range 99).foldl
        (fun acc i => if fault_active (kv :: rest) i then acc ++ [fault_desc fmap i]
          else acc) []
      = ((List.range 99).filter (fault_active (kv :: rest))).map (fault_desc fmap)
    rw [foldl_guard_append (fault_active (kv :: rest)) (fault_desc fmap)
      (List.range 99) []]
    rw [List.nil_append]

/-- C7: the displayed health status is `FAULT` whenever the tag
`system.general.systemFault` is truthy or at least one fault-array index is
active, regardless of the staleness tier; when the global bit is truthy but
no indexed fault is active, the generic check-logs fallback text is
rendered instead of a specific fault. -/
theorem C7_fault_precedence :
    (∀ (data : Option Payload) (age : ℚ),
        truthyJ (fault_active_bit data) = true → header_status data age = .FAULT) ∧
      (∀ (data : Option Payload) (age : ℚ),
        get_active_fault_messages data ≠ [] → header_status data age = .FAULT) ∧
      (∀ data : Option Payload,
        truthyJ (fault_active_bit data) = true →
          get_active_fault_messages data = [] →
            fault_sub_text (get_active_fault_messages data) = "⚠️ Check PLC Logs") := by
  refine ⟨?_, ?_, ?_⟩
  · intro data age h
    rw [header_status, if_pos]
    rw [is_fault_condition, h, Bool.true_or]
  · intro data age h
    rw [header_status, if_pos]
    rw [is_fault_condition]
    cases hfl : get_active_fault_messages data with
    | nil => exact absurd hfl h
    | cons a l => rw [List.isEmpty_cons, Bool.not_false, Bool.or_true]
  · intro data _ h2
    rw [h2]
    rfl

/-- C7 witness: with only the global `systemFault` bit set and elapsed time
deep in the offline band, the status is still `FAULT` and the fallback text
is the generic check-logs message. -/
theorem C7_fault_precedence_w :
    header_status (some [("system.general.systemFault", JVal.bool true)]) 1000
        = .FAULT ∧
      fault_sub_text (get_active_fault_messages
          (some [("system.general.systemFault", JVal.bool true)]))
        = "⚠️ Check PLC Logs" :=
  ⟨C7_fault_precedence.1 (some [("system.general.systemFault", JVal.bool true)])
      1000 (by rfl),
    C7_fault_precedence.2.2 (some [("system.general.systemFault", JVal.bool true)])
      (by rfl) (by decide)⟩

/-- C8: every failed poll — network failure, non-200 response, unparseable
body, or a payload whose timestamp does not resolve — leaves the tracked
state completely unchanged (the functions are total, so no exception can
propagate); in particular a snapshot with no resolvable timestamp is never
accepted even as the first one, and the state keeps `best_snapshot = none`
(the connecting state). -/
theorem C8_failed_poll_atomicity :
    (∀ s : TrackedState, pollCycle s .netError = s) ∧
      (∀ s : TrackedState, pollCycle s .httpError = s) ∧
      (∀ s : TrackedState, pollCycle s .badJson = s) ∧
      (∀ (s : TrackedState) (p : Payload),
        resolve_ts (tagGet p "timestamp") = none → pollCycle s (.ok p) = s) ∧
      (∀ p : Payload, resolve_ts (tagGet p "timestamp") = none →
        (pollCycle initState (.ok p)).best_snapshot = none) := by
  have hok : ∀ (s : TrackedState) (p : Payload),
      resolve_ts (tagGet p "timestamp") = none → pollCycle s (.ok p) = s := by
    intro s p h
    show poll_update s (some p) (resolve_ts (tagGet p "timestamp")) = s
    rw [h]
    exact poll_update_none_ts s (some p)
  refine ⟨fun s => rfl, fun s => rfl, fun s => rfl, hok, ?_⟩
  intro p h
  rw [hok initState p h]
  rfl

/-- C8 witness: a payload whose timestamp is an ISO-8601 string does not
resolve, and the poll leaves the fresh session state unchanged. -/
theorem C8_failed_poll_atomicity_w :
    pollCycle initState (.ok [("timestamp", JVal.str "2023-11-14T22:13:20Z")])
      = initState :=
  C8_failed_poll_atomicity.2.2.2.1 initState
    [("timestamp", JVal.str "2023-11-14T22:13:20Z")]
    (by
      show resolve_ts (some (JVal.str "2023-11-14T22:13:20Z")) = none
      have h1 : truthyJ (.str "2023-11-14T22:13:20Z") = true := by decide
      rw [resolve_ts, h1]
      show parsePyFloat "2023-11-14T22:13:20Z" = none
      have h3 : parseFloatRepr "2023-11-14T22:13:20Z" = none := by decide
      rw [parsePyFloat, h3]
      rfl)

/-- C9: the tag accessor is total: an absent mapping yields the default,
and on a present mapping it returns exactly the value stored under the flat
key when present and the default otherwise (no nested traversal); in
particular `get_val tags "missing.key" 0` returns `0` whenever the key is
absent. -/
theorem C9_get_val_total :
    (∀ (path : String) (dflt : JVal), get_val none path dflt = dflt) ∧
      (∀ (l : Payload) (path : String) (dflt : JVal),
        get_val (some l) path dflt = (tagGet l path).getD dflt) ∧
      (∀ (l : Payload) (path : String) (dflt : JVal) (v : JVal),
        tagGet l path = some v → get_val (some l) path dflt = v) ∧
      (∀ (l : Payload) (path : String) (dflt : JVal),
        tagGet l path = none → get_val (some l) path dflt = dflt) ∧
      get_val none "missing.key" (JVal.num 0) = JVal.num 0 ∧
      get_val (some [("present.key", JVal.num 1)]) "missing.key" (JVal.num 0)
        = JVal.num 0 := by
  have hchar : ∀ (l : Payload) (path : String) (dflt : JVal),
      get_val (some l) path dflt = (tagGet l path).getD dflt := by
    intro l path dflt
    cases l with
    | nil => rfl
    | cons kv rest => rfl
  refine ⟨fun path dflt => rfl, hchar, ?_, ?_, rfl, rfl⟩
  · intro l path dflt v h
    rw [hchar, h]
    rfl
  · intro l path dflt h
    rw [hchar, h]
    rfl

/-- C9 witness: a stored value is returned as-is, and a missing key yields
the default. -/
theorem C9_get_val_total_w :
    get_val (some [("k", JVal.num 7)]) "k" (JVal.num 0) = JVal.num 7 :=
  C9_get_val_total.2.2.1 [("k", JVal.num 7)] "k" (JVal.num 0) (JVal.num 7) rfl

/-- C10: a successfully parsed payload that is an empty mapping is never
accepted: the guard requires the parsed snapshot itself to be truthy
(non-empty), so the tracked state is unchanged by every such poll — even
for a hypothetical resolved instant at least as large as the tracked one. -/
theorem C10_empty_snapshot_rejected :
    (∀ (s : TrackedState) (fts : Option ℚ), poll_update s (some []) fts = s) ∧
      (∀ (s : TrackedState) (t : ℚ), s.best_ts ≤ t →
        poll_update s (some []) (some t) = s) ∧
      (∀ s : TrackedState, pollCycle s (.ok []) = s) := by
  refine ⟨poll_update_nil, fun s t _ => poll_update_nil s (some t), ?_⟩
  intro s
  show poll_update s (some []) (resolve_ts (tagGet [] "timestamp")) = s
  exact poll_update_nil s _

/-- C10 witness: an empty snapshot with hypothetical instant `5 >= 0` still
leaves the fresh session state unchanged. -/
theorem C10_empty_snapshot_rejected_w :
    poll_update initState (some []) (some 5) = initState :=
  C10_empty_snapshot_rejected.2.1 initState 5 (by norm_num [initState])
